import Mathlib

/-!
Shallow embedding of the music-player logic of the hola-animated-pwa
repository.  The source file contains two revisions of the player code:

* revision 1 (the first document in the bundle): playNext with a
  resample-until-distinct shuffle, playPrev without a shuffle branch,
  playTrack selecting the first audio stream whose videoOnly flag is
  falsy, and a single close button handler;
* revision 2 (the last document, whose comments state that the old
  player implementation was removed in its favour): playNext and
  playPrev that both draw a uniformly random index under shuffle,
  playTrack that takes audioStreams[0] and stops the current audio
  before resolving, and mini/full close button handlers.

Both revisions share the same searchMusic aggregator.  JavaScript string
truthiness (undefined, null and the empty string are falsy) is modelled
by Option String together with jsOrS; absent JSON fields are none.
JavaScript's remainder operator on integers is Int.tmod (sign of the
dividend), and Math.floor(Math.random() * n) is modelled as an explicit
draw, a natural number below n.
-/

/-- Provenance of a track: the Audius provider or the YouTube/Piped provider. -/
inductive Source where
  | audius
  | youtube
deriving DecidableEq, Repr

/-- Unified track object produced by searchMusic.  Audius tracks carry a
direct stream URL in stream; YouTube tracks carry a videoId; the field
not used by a source stays the empty string (absent in the JS object). -/
structure Track where
  source : Source
  title : String
  artist : String
  cover : String
  stream : String
  videoId : String
deriving DecidableEq, Repr

/-- streamRef of a track as the spec names it: the stream URL for
ProviderA (Audius) and the video identifier for ProviderB (YouTube). -/
def streamRef (t : Track) : String :=
  match t.source with
  | Source.audius => t.stream
  | Source.youtube => t.videoId

/-- JavaScript "a || d" for a possibly absent string a: the default d is
taken when a is undefined or the empty string (both falsy). -/
def jsOrS (v : Option String) (d : String) : String :=
  match v with
  | some s => if s = "" then d else s
  | none => d

/-- Nested user object of an Audius search entry. -/
structure AudiusUser where
  name : Option String
  handle : Option String
deriving DecidableEq, Repr

/-- Nested artwork object of an Audius search entry. -/
structure AudiusArtwork where
  size150 : Option String
  size480 : Option String
deriving DecidableEq, Repr

/-- Nested stream object of an Audius search entry. -/
structure AudiusStream where
  url : Option String
deriving DecidableEq, Repr

/-- Raw Audius search entry as consumed by searchMusic. -/
structure AudiusRaw where
  title : Option String
  user : Option AudiusUser
  artwork : Option AudiusArtwork
  stream : Option AudiusStream
deriving DecidableEq, Repr

/-- Audius response body: the data field may be absent (dataAudius.data || []). -/
structure AudiusResponse where
  data : Option (List AudiusRaw)
deriving DecidableEq, Repr

/-- Mapping of one raw Audius entry to a Track, mirroring the map
callback of searchMusic (t.title || onward chains with JS truthiness). -/
def mapAudiusTrack (t : AudiusRaw) : Track :=
  { source := Source.audius
    title := jsOrS t.title ""
    artist :=
      match t.user with
      | some u => jsOrS u.name (jsOrS u.handle "")
      | none => ""
    cover :=
      match t.artwork with
      | some a => jsOrS a.size150 (jsOrS a.size480 "")
      | none => ""
    stream :=
      match t.stream with
      | some s => jsOrS s.url ""
      | none => ""
    videoId := "" }

/-- Audius pipeline of searchMusic: slice(0, 6), map, then filter on a
truthy (non-empty) stream URL. -/
def mapAudiusList (l : List AudiusRaw) : List Track :=
  ((l.take 6).map mapAudiusTrack).filter (fun t => t.stream != "")

/-- Raw Piped search item as consumed by searchMusic. -/
structure PipedItem where
  id : Option String
  url : Option String
  title : Option String
  uploader : Option String
  thumbnail : Option String
deriving DecidableEq, Repr

/-- Piped response body: either an object with an items array, a bare
array, or something that is not an array at all (yielding no tracks). -/
inductive PipedResponse where
  | withItems (items : List PipedItem)
  | asArray (items : List PipedItem)
  | nonArray
deriving DecidableEq, Repr

/-- Items extracted from a Piped response: dataYoutube.items ||
dataYoutube, guarded by Array.isArray. -/
def pipedItems : PipedResponse → List PipedItem
  | PipedResponse.withItems l => l
  | PipedResponse.asArray l => l
  | PipedResponse.nonArray => []

/-- videoId extraction: item.id, else the part of item.url after a
first occurrence of the separator, else item.url, else the empty
string, each step skipped when its value is falsy. -/
def pipedVideoId (item : PipedItem) : String :=
  jsOrS item.id
    (jsOrS (item.url.bind (fun u => (u.splitOn "v=").get? 1))
      (jsOrS item.url ""))

/-- Mapping of one Piped item to a Track, mirroring the map callback of
searchMusic. -/
def mapYoutubeTrack (item : PipedItem) : Track :=
  { source := Source.youtube
    title := jsOrS item.title ""
    artist := jsOrS item.uploader ""
    cover := jsOrS item.thumbnail ""
    stream := ""
    videoId := pipedVideoId item }

/-- Piped pipeline of searchMusic: slice(0, 6) then map, with no filter. -/
def mapYoutubeList (l : List PipedItem) : List Track :=
  (l.take 6).map mapYoutubeTrack

/-- Source filter chosen by the radio buttons. -/
inductive SourceFilter where
  | all
  | audius
  | youtube
deriving DecidableEq, Repr

/-- Core of searchMusic, shared by both revisions: each provider fetch
is either a parsed response or a failure (network error or JSON parse
error); a failing fetch is caught and contributes no tracks; the Audius
tracks are concatenated first, then the Piped tracks. -/
def searchTracks (filter : SourceFilter)
    (aRes : Except Unit AudiusResponse)
    (yRes : Except Unit PipedResponse) : List Track :=
  let audiusTracks : List Track :=
    if filter = SourceFilter.all ∨ filter = SourceFilter.audius then
      match aRes with
      | Except.ok resp => mapAudiusList (resp.data.getD [])
      | Except.error _ => []
    else []
  let youtubeTracks : List Track :=
    if filter = SourceFilter.all ∨ filter = SourceFilter.youtube then
      match yRes with
      | Except.ok resp => mapYoutubeList (pipedItems resp)
      | Except.error _ => []
    else []
  audiusTracks ++ youtubeTracks

/-- Audio stream descriptor returned by the Piped streams endpoint.  A
missing or empty url is modelled as the empty string (both are falsy in
the JS checks); a missing videoOnly flag is falsy and modelled false. -/
structure AudioStream where
  url : String
  videoOnly : Bool
deriving DecidableEq, Repr

namespace Rev1

/-- Stream selection of the first revision's playTrack:
(info.audioStreams || []).find((s) => !s.videoOnly).  No fallback is
taken when every stream is video-only: find returns undefined and the
audio source is left untouched. -/
def selectStream (streams : List AudioStream) : Option AudioStream :=
  streams.find? (fun s => !s.videoOnly)

/-- Cursor update of the first revision's playNext, with the random
draws of the resample loop made explicit: the loop keeps drawing
Math.floor(Math.random() * length) while the draw equals the current
cursor.  The result is the first draw different from the cursor; none
models a loop that has not yet terminated on the given draws. -/
def firstDistinct (cursor : Int) : List Nat → Option Int
  | [] => none
  | s :: rest => if (s : Int) = cursor then firstDistinct cursor rest else some s

/-- playNext of the first revision at the cursor level: early return on
an empty playlist; under shuffle with length > 1 the resample loop runs,
under shuffle with length = 1 the candidate stays equal to the cursor
and the loop body never executes; otherwise (cursorIndex + 1) %
playlist.length with the JS remainder. -/
def playNext (len : Nat) (cursor : Int) (shuffle : Bool)
    (samples : List Nat) : Option Int :=
  if len = 0 then some cursor
  else if shuffle then
    if 1 < len then firstDistinct cursor samples
    else some cursor
  else some ((cursor + 1).tmod len)

/-- playPrev of the first revision at the cursor level: early return on
an empty playlist, else (cursorIndex - 1 + playlist.length) %
playlist.length with the JS remainder; no shuffle branch exists. -/
def playPrev (len : Nat) (cursor : Int) : Int :=
  if len = 0 then cursor else (cursor - 1 + len).tmod len

/-- Player state of the first revision as far as the close handler
touches it: the shared audio element, the single player panel with its
expanded flag, and the track cursor state. -/
structure PlayerState where
  playlist : List Track
  cursor : Int
  current : Option Track
  src : String
  paused : Bool
  pos : Int
  playerHidden : Bool
  expanded : Bool
deriving DecidableEq, Repr

/-- Close handler of the first revision (playerCloseBtn): pause the
audio, reset currentTime to 0, hide the player, drop the expanded
class and flag.  currentTrack and currentTrackIndex are not touched. -/
def close (st : PlayerState) : PlayerState :=
  { st with paused := true, pos := 0, playerHidden := true, expanded := false }

end Rev1

namespace Rev2

/-- Index chosen by the second revision's playNext: a fresh uniform
draw under shuffle (which may repeat the current cursor), else
(cursorIndex + 1) % playlist.length with the JS remainder. -/
def nextIndex (len : Nat) (cursor : Int) (shuffle : Bool) (rand : Nat) : Int :=
  if shuffle then (rand : Int) else (cursor + 1).tmod len

/-- Index chosen by the second revision's playPrev: a fresh uniform
draw under shuffle, else (cursorIndex - 1 + playlist.length) %
playlist.length with the JS remainder. -/
def prevIndex (len : Nat) (cursor : Int) (shuffle : Bool) (rand : Nat) : Int :=
  if shuffle then (rand : Int) else (cursor - 1 + len).tmod len

/-- Cursor after the second revision's playNext, including the early
return on an empty playlist. -/
def playNextCursor (len : Nat) (cursor : Int) (shuffle : Bool) (rand : Nat) : Int :=
  if len = 0 then cursor else nextIndex len cursor shuffle rand

/-- Cursor after the second revision's playPrev, including the early
return on an empty playlist. -/
def playPrevCursor (len : Nat) (cursor : Int) (shuffle : Bool) (rand : Nat) : Int :=
  if len = 0 then cursor else prevIndex len cursor shuffle rand

/-- Player state of the second revision as far as playTrack, playNext
and the close handlers touch it: playlist and cursor, the current
track, the shared audio element (source, paused flag, position) and the
visibility of the mini and full player panels. -/
structure PlayerState where
  playlist : List Track
  cursor : Int
  current : Option Track
  src : String
  paused : Bool
  pos : Int
  miniHidden : Bool
  fullHidden : Bool
deriving DecidableEq, Repr

/-- JavaScript findIndex on the playlist: the index of the first
matching track, or -1 when none matches.  The JS code compares by
object identity; tracks built by searchMusic are plain records, so
structural equality stands in for identity here. -/
def jsFindIndex (l : List Track) (t : Track) : Int :=
  let i := l.findIdx (fun x => x == t)
  if i = l.length then -1 else (i : Int)

/-- Tail of a successful playTrack: await audio.play() (paused becomes
false) followed by showMini (mini player shown, full player hidden). -/
def playFinish (st : PlayerState) : PlayerState :=
  { st with paused := false, miniHidden := false, fullHidden := true }

/-- playTrack of the second revision.  In source order: currentTrack is
assigned, a negative cursor is recomputed via findIndex, the running
audio is paused and its source cleared, then the branch on the track
source.  A YouTube track consults the resolution outcome (the fetch of
the streams endpoint): on a network or parse error, or when
audioStreams[0] is missing or has a falsy url, the function returns
early, leaving the audio paused with an empty source; otherwise the
first stream's url becomes the source and playback starts.  An Audius
track plays its direct stream URL. -/
def playTrack (st : PlayerState) (track : Track)
    (resolution : Except Unit (List AudioStream)) : PlayerState :=
  let cursor : Int := if st.cursor < 0 then jsFindIndex st.playlist track else st.cursor
  let st1 : PlayerState :=
    { st with current := some track, cursor := cursor, paused := true, src := "" }
  match track.source with
  | Source.youtube =>
    match resolution with
    | Except.error _ => st1
    | Except.ok streams =>
      match streams.head? with
      | none => st1
      | some s => if s.url = "" then st1 else playFinish { st1 with src := s.url }
  | Source.audius => playFinish { st1 with src := track.stream }

/-- playNext of the second revision on the full state: early return on
an empty playlist, then the cursor is assigned nextIndex and playTrack
runs on the track at that index.  When the index is outside the
playlist, playTrack receives undefined and throws after currentTrack,
pause and the source reset have already happened; that aborted state is
the last match arm. -/
def playNext (shuffle : Bool) (rand : Nat)
    (resolution : Except Unit (List AudioStream)) (st : PlayerState) : PlayerState :=
  if st.playlist.length = 0 then st
  else
    let idx : Int := nextIndex st.playlist.length st.cursor shuffle rand
    let st1 : PlayerState := { st with cursor := idx }
    match (if 0 ≤ idx then st1.playlist.get? idx.toNat else none) with
    | some t => playTrack st1 t resolution
    | none => { st1 with current := none, paused := true, src := "" }

/-- Close handler of the second revision (miniCloseBtn and fullCloseBtn
run the same statements): pause the audio, reset currentTime to 0, hide
both player panels.  currentTrack and currentTrackIndex are not
touched. -/
def close (st : PlayerState) : PlayerState :=
  { st with paused := true, pos := 0, miniHidden := true, fullHidden := true }

end Rev2

/-- Stream selection of the second revision's playTrack:
(data?.audioStreams || [])[0], the first entry regardless of its
videoOnly flag. -/
def Rev2.selectStream (streams : List AudioStream) : Option AudioStream :=
  streams.head?

/-- Stream selection rule as the specification words it: the first
entry whose videoOnly field is false when such an entry exists, and
otherwise the first entry of the list.  Stated for comparison with the
two selection rules actually implemented. -/
def claimedSelectStream (streams : List AudioStream) : Option AudioStream :=
  match streams.find? (fun s => !s.videoOnly) with
  | some s => some s
  | none => streams.head?

/-- Bounds of the JS remainder for a non-negative dividend: it agrees
with the mathematical remainder, hence lies in the interval from 0 to
the playlist length. -/
lemma tmod_bounds (d : Int) (len : Nat) (h0 : 0 < len) (hd : 0 ≤ d) :
    0 ≤ d.tmod len ∧ d.tmod len < len := by
  have hlen : (0 : Int) < (len : Int) := by exact_mod_cast h0
  rw [Int.tmod_eq_emod hd (le_of_lt hlen)]
  exact ⟨Int.emod_nonneg d (by omega), Int.emod_lt_of_pos d hlen⟩

/-- Characterisation of the resample loop of the first revision's
shuffle: when every draw is a valid index and some draw differs from
the cursor, the loop terminates on the first such draw, which is a
valid index different from the cursor. -/
lemma firstDistinct_spec (len : Nat) (c : Int) :
    ∀ samples : List Nat, (∀ s ∈ samples, s < len) →
      (∃ s ∈ samples, (s : Int) ≠ c) →
      ∃ j, Rev1.firstDistinct c samples = some j ∧ 0 ≤ j ∧ j < len ∧ j ≠ c := by
  intro samples
  induction samples with
  | nil => intro _ hex; simp at hex
  | cons s rest ih =>
    intro hall hex
    by_cases hs : (s : Int) = c
    · have hex' : ∃ x ∈ rest, (x : Int) ≠ c := by
        rcases hex with ⟨x, hx, hxc⟩
        rcases List.mem_cons.mp hx with h | h
        · exact absurd (h ▸ hs) hxc
        · exact ⟨x, h, hxc⟩
      have hall' : ∀ x ∈ rest, x < len := fun x hx => hall x (List.mem_cons_of_mem _ hx)
      rcases ih hall' hex' with ⟨j, hj1, hj2⟩
      exact ⟨j, by simpa [Rev1.firstDistinct, hs] using hj1, hj2⟩
    · refine ⟨(s : Int), by simp [Rev1.firstDistinct, hs], by positivity, ?_, hs⟩
      exact_mod_cast hall s (List.mem_cons_self s rest)

/-- Iterating the non-shuffle playNext cursor update k times from a
valid cursor lands on cursor plus k modulo the playlist length. -/
lemma playNextCursor_iterate (len : Nat) (h0 : 0 < len) :
    ∀ (k : Nat) (c : Int), 0 ≤ c → c < len →
      (fun x => Rev2.playNextCursor len x false 0)^[k] c = (c + k) % len := by
  have hlen : (0 : Int) < (len : Int) := by exact_mod_cast h0
  intro k
  induction k with
  | zero =>
    intro c h1 h2
    simpa using (Int.emod_eq_of_lt h1 h2).symm
  | succ k ih =>
    intro c h1 h2
    have hstep : Rev2.playNextCursor len c false 0 = (c + 1) % len := by
      simp only [Rev2.playNextCursor, Rev2.nextIndex, if_neg (by omega : ¬ len = 0),
        if_neg (by simp : ¬ False)]
      · exact Int.tmod_eq_emod (by omega) (le_of_lt hlen)
    rw [Function.iterate_succ_apply, hstep,
      ih ((c + 1) % len) (Int.emod_nonneg _ (by omega)) (Int.emod_lt_of_pos _ hlen),
      Int.emod_add_emod]
    push_cast
    ring_nf

/-- C1 (counterexample): the second revision's playNext under shuffle
draws uniformly over all indices and may land on the current cursor.
With a playlist of length 2, cursor 0 and the valid draw 0, the cursor
after the call equals the cursor before it, refuting the distinctness
invariant as stated. -/
theorem c1_counterexample :
    (0 : Nat) < 2 ∧ Rev2.playNextCursor 2 0 true 0 = 0 := by decide

/-- C1 (amended): the first revision's playNext under shuffle with
length greater than 1 moves the cursor to a valid index different from
the cursor before the call, provided the resample loop terminates on
the given draws; the second revision's playNext under shuffle lands on
a valid index but is not guaranteed distinct from the old cursor. -/
theorem c1_amended (len : Nat) (c : Int) (samples : List Nat) (rand : Nat)
    (h1 : 1 < len) (hall : ∀ s ∈ samples, s < len)
    (hex : ∃ s ∈ samples, (s : Int) ≠ c) :
    (∃ j, Rev1.playNext len c true samples = some j ∧ 0 ≤ j ∧ j < len ∧ j ≠ c) ∧
    (rand < len →
      0 ≤ Rev2.playNextCursor len c true rand ∧
      Rev2.playNextCursor len c true rand < len) := by
  constructor
  · rcases firstDistinct_spec len c samples hall hex with ⟨j, hj, hj0, hjlen, hjc⟩
    refine ⟨j, ?_, hj0, hjlen, hjc⟩
    simpa [Rev1.playNext, if_neg (by omega : ¬ len = 0), h1] using hj
  · intro hr
    have : Rev2.playNextCursor len c true rand = (rand : Int) := by
      simp [Rev2.playNextCursor, Rev2.nextIndex, if_neg (by omega : ¬ len = 0)]
    rw [this]
    exact ⟨by positivity, by exact_mod_cast hr⟩

/-- C1 (witness): with three tracks, cursor 0, draws 0 then 2 for the
first revision and draw 1 for the second, the amended statement holds
concretely. -/
theorem c1_amended_witness :
    (∃ j, Rev1.playNext 3 0 true [0, 2] = some j ∧ 0 ≤ j ∧ j < 3 ∧ j ≠ 0) ∧
    (0 ≤ Rev2.playNextCursor 3 0 true 1 ∧ Rev2.playNextCursor 3 0 true 1 < 3) := by
  have h := c1_amended 3 0 [0, 2] 1 (by decide) (by decide) ⟨2, by decide, by decide⟩
  exact ⟨h.1, h.2 (by decide)⟩

/-- C8: with shuffle off, each playNext call moves a valid cursor c to
(c + 1) mod length; k calls move it to (c + k) mod length, so the
indices are visited in strict cyclic order; after exactly length calls
the cursor is back where it started; and the first revision's playNext
computes the same non-shuffle index. -/
theorem c8_nonshuffle_cyclic (len k : Nat) (c : Int)
    (h0 : 0 < len) (h1 : 0 ≤ c) (h2 : c < len) :
    (fun x => Rev2.playNextCursor len x false 0)^[k] c = (c + k) % len ∧
    (fun x => Rev2.playNextCursor len x false 0)^[len] c = c ∧
    Rev1.playNext len c false [] = some (Rev2.playNextCursor len c false 0) := by
  have hlen : (0 : Int) < (len : Int) := by exact_mod_cast h0
  refine ⟨playNextCursor_iterate len h0 k c h1 h2, ?_, ?_⟩
  · rw [playNextCursor_iterate len h0 len c h1 h2]
    have : (c + (len : Int)) % len = c % len := by
      have h := Int.add_mul_emod_self_left c (len : Int) 1
      rwa [Int.mul_one] at h
    rw [this, Int.emod_eq_of_lt h1 h2]
  · simp [Rev1.playNext, Rev2.playNextCursor, Rev2.nextIndex,
      if_neg (by omega : ¬ len = 0)]

/-- C8 (witness): from cursor 2 in a 5-track playlist with shuffle off,
three playNext calls give the cursor sequence 3, 4, 0, and five calls
return to 2. -/
theorem c8_nonshuffle_cyclic_witness :
    (fun x => Rev2.playNextCursor 5 x false 0)^[1] 2 = 3 ∧
    (fun x => Rev2.playNextCursor 5 x false 0)^[2] 2 = 4 ∧
    (fun x => Rev2.playNextCursor 5 x false 0)^[3] 2 = 0 ∧
    (fun x => Rev2.playNextCursor 5 x false 0)^[5] 2 = 2 := by
  refine ⟨?_, ?_, ?_, ?_⟩
  · rw [(c8_nonshuffle_cyclic 5 1 2 (by decide) (by decide) (by decide)).1]; decide
  · rw [(c8_nonshuffle_cyclic 5 2 2 (by decide) (by decide) (by decide)).1]; decide
  · rw [(c8_nonshuffle_cyclic 5 3 2 (by decide) (by decide) (by decide)).1]; decide
  · exact (c8_nonshuffle_cyclic 5 0 2 (by decide) (by decide) (by decide)).2.1

/-- C9: with shuffle off, playPrev followed by playNext returns the
cursor to its original valid index, in both revisions. -/
theorem c9_prev_next_roundtrip (len : Nat) (c : Int)
    (h0 : 0 < len) (h1 : 0 ≤ c) (h2 : c < len) :
    Rev1.playNext len (Rev1.playPrev len c) false [] = some c ∧
    Rev2.playNextCursor len (Rev2.playPrevCursor len c false 0) false 0 = c := by
  have hlen : (0 : Int) < (len : Int) := by exact_mod_cast h0
  have hprev : (c - 1 + (len : Int)).tmod len = (c - 1 + len) % len :=
    Int.tmod_eq_emod (by omega) (le_of_lt hlen)
  have hmain : ((c - 1 + (len : Int)).tmod len + 1).tmod len = c := by
    rw [hprev]
    have hnn : 0 ≤ (c - 1 + (len : Int)) % len := Int.emod_nonneg _ (by omega)
    rw [Int.tmod_eq_emod (by omega) (le_of_lt hlen), Int.emod_add_emod]
    have : c - 1 + (len : Int) + 1 = c + (len : Int) * 1 := by ring
    rw [this, Int.add_mul_emod_self_left, Int.emod_eq_of_lt h1 h2]
  constructor
  · simp only [Rev1.playPrev, Rev1.playNext, if_neg (by omega : ¬ len = 0)]
    simp [hmain]
  · simp only [Rev2.playPrevCursor, Rev2.playNextCursor, Rev2.prevIndex, Rev2.nextIndex,
      if_neg (by omega : ¬ len = 0)]
    simp [hmain]

/-- C9 (witness): in a 4-track playlist at cursor 1, playPrev then
playNext returns to cursor 1 in both revisions. -/
theorem c9_prev_next_roundtrip_witness :
    Rev1.playNext 4 (Rev1.playPrev 4 1) false [] = some 1 ∧
    Rev2.playNextCursor 4 (Rev2.playPrevCursor 4 1 false 0) false 0 = 1 :=
  c9_prev_next_roundtrip 4 1 (by decide) (by decide) (by decide)

/-- C10 (counterexample): the first revision's playNext under shuffle
with a single-track playlist never enters the resample loop, so from
the no-track-selected cursor -1 it leaves the cursor at -1, outside the
playlist bounds, even though a valid draw was available. -/
theorem c10_counterexample :
    Rev1.playNext 1 (-1) true [0] = some (-1) ∧ ¬ (0 : Int) ≤ -1 := by decide

/-- C10 (amended): on a non-empty playlist with a cursor no smaller
than -1 and valid draws, playPrev of both revisions and non-shuffle
playNext land in the playlist bounds; from cursor -1, non-shuffle
playNext lands on 0 and playPrev on (length - 2) mod length; the second
revision's shuffled playNext and playPrev land in bounds; the first
revision's shuffled playNext lands in bounds on a distinct index when
the length exceeds 1, but with length 1 it leaves the cursor unchanged,
so a cursor of -1 stays out of bounds. -/
theorem c10_amended (len : Nat) (c : Int) (rand : Nat) (samples : List Nat)
    (h0 : 0 < len) (hc : -1 ≤ c) (hr : rand < len)
    (hall : ∀ s ∈ samples, s < len) (hex : ∃ s ∈ samples, (s : Int) ≠ c) :
    (0 ≤ Rev1.playPrev len c ∧ Rev1.playPrev len c < len) ∧
    (0 ≤ Rev2.playPrevCursor len c false rand ∧
      Rev2.playPrevCursor len c false rand < len) ∧
    (0 ≤ Rev2.playNextCursor len c false rand ∧
      Rev2.playNextCursor len c false rand < len) ∧
    (0 ≤ Rev2.playNextCursor len c true rand ∧
      Rev2.playNextCursor len c true rand < len) ∧
    (0 ≤ Rev2.playPrevCursor len c true rand ∧
      Rev2.playPrevCursor len c true rand < len) ∧
    Rev2.playNextCursor len (-1) false rand = 0 ∧
    Rev1.playPrev len (-1) = ((len : Int) - 2) % len ∧
    (1 < len →
      ∃ j, Rev1.playNext len c true samples = some j ∧ 0 ≤ j ∧ j < len ∧ j ≠ c) ∧
    Rev1.playNext 1 c true samples = some c := by
  have hlen : (0 : Int) < (len : Int) := by exact_mod_cast h0
  have hnz : ¬ len = 0 := by omega
  have hrand : (0 : Int) ≤ (rand : Int) ∧ (rand : Int) < len :=
    ⟨by positivity, by exact_mod_cast hr⟩
  have hprevBounds : 0 ≤ (c - 1 + (len : Int)).tmod len ∧
      (c - 1 + (len : Int)).tmod len < len := by
    rcases (by omega : 0 ≤ c - 1 + (len : Int) ∨ (c = -1 ∧ len = 1)) with hd | ⟨hc1, hl1⟩
    · exact tmod_bounds _ len h0 hd
    · subst hc1; subst hl1; decide
  refine ⟨?_, ?_, ?_, ?_, ?_, ?_, ?_, ?_, ?_⟩
  · simpa [Rev1.playPrev, hnz] using hprevBounds
  · simpa [Rev2.playPrevCursor, Rev2.prevIndex, hnz] using hprevBounds
  · simpa [Rev2.playNextCursor, Rev2.nextIndex, hnz] using
      tmod_bounds (c + 1) len h0 (by omega)
  · simpa [Rev2.playNextCursor, Rev2.nextIndex, hnz] using hrand
  · simpa [Rev2.playPrevCursor, Rev2.prevIndex, hnz] using hrand
  · simp [Rev2.playNextCursor, Rev2.nextIndex, hnz]
  · simp only [Rev1.playPrev, if_neg hnz]
    have harg : (-1 : Int) - 1 + (len : Int) = (len : Int) - 2 := by ring
    rw [harg]
    rcases (by omega : len = 1 ∨ 0 ≤ (len : Int) - 2) with hl1 | hd
    · subst hl1; decide
    · exact Int.tmod_eq_emod hd (le_of_lt hlen)
  · intro hgt
    rcases firstDistinct_spec len c samples hall hex with ⟨j, hj, hj0, hjlen, hjc⟩
    exact ⟨j, by simpa [Rev1.playNext, hnz, hgt] using hj, hj0, hjlen, hjc⟩
  · simp [Rev1.playNext]

/-- C10 (witness): with three tracks, cursor -1, draw 2 and resample
draws containing 1, the amended bounds hold concretely, and playPrev
from -1 lands on index 1. -/
theorem c10_amended_witness :
    (0 ≤ Rev1.playPrev 3 (-1) ∧ Rev1.playPrev 3 (-1) < 3) ∧
    Rev2.playNextCursor 3 (-1) false 2 = 0 ∧
    Rev1.playPrev 3 (-1) = 1 := by
  have h := c10_amended 3 (-1) 2 [1] (by decide) (by decide) (by decide)
    (by decide) ⟨1, by decide, by decide⟩
  refine ⟨h.1, h.2.2.2.2.2.1, ?_⟩
  rw [h.2.2.2.2.2.2.1]; decide

/-- C2 (counterexample): neither revision implements the claimed
selection rule.  With streams [video-only "a", audio "b"], the second
revision selects "a" (plain first entry) where the claim selects "b";
with the single video-only stream "a", the first revision selects
nothing (no fallback to the first entry) where the claim selects "a". -/
theorem c2_counterexample :
    Rev2.playTrack
        { playlist := [], cursor := 0, current := none, src := "", paused := false,
          pos := 0, miniHidden := true, fullHidden := true }
        { source := Source.youtube, title := "t", artist := "", cover := "",
          stream := "", videoId := "v" }
        (Except.ok [{ url := "a", videoOnly := true }, { url := "b", videoOnly := false }])
      ≠ Rev2.playTrack
        { playlist := [], cursor := 0, current := none, src := "", paused := false,
          pos := 0, miniHidden := true, fullHidden := true }
        { source := Source.youtube, title := "t", artist := "", cover := "",
          stream := "", videoId := "v" }
        (Except.ok [{ url := "b", videoOnly := false }]) ∧
    Rev2.selectStream [{ url := "a", videoOnly := true }, { url := "b", videoOnly := false }]
      ≠ claimedSelectStream
        [{ url := "a", videoOnly := true }, { url := "b", videoOnly := false }] ∧
    Rev1.selectStream [{ url := "a", videoOnly := true }]
      ≠ claimedSelectStream [{ url := "a", videoOnly := true }] := by
  refine ⟨?_, by decide, by decide⟩
  decide

/-- C2 (amended): the first revision selects the first audio stream
whose videoOnly flag is false and selects nothing when every stream is
video-only (aborting the load, with no fallback to the first entry);
the second revision always selects the first entry of the list
regardless of its videoOnly flag, and when that entry has a non-empty
url the second revision's playTrack makes it the audio source and
starts playback. -/
theorem c2_amended (streams : List AudioStream) :
    (∀ s, Rev1.selectStream streams = some s → s.videoOnly = false ∧ s ∈ streams) ∧
    ((∀ s ∈ streams, s.videoOnly = true) → Rev1.selectStream streams = none) ∧
    (∀ a rest, streams = a :: rest → Rev2.selectStream streams = some a) ∧
    (∀ (st : Rev2.PlayerState) (track : Track) (a : AudioStream)
        (rest : List AudioStream),
      track.source = Source.youtube → streams = a :: rest → a.url ≠ "" →
      (Rev2.playTrack st track (Except.ok streams)).src = a.url ∧
      (Rev2.playTrack st track (Except.ok streams)).paused = false) := by
  refine ⟨?_, ?_, ?_, ?_⟩
  · intro s hs
    have hp := List.find?_some hs
    have hm := List.mem_of_find?_eq_some hs
    exact ⟨by simpa using hp, hm⟩
  · intro hall
    apply List.find?_eq_none.mpr
    intro s hs
    simp [hall s hs]
  · intro a rest h
    simp [Rev2.selectStream, h]
  · intro st track a rest hsrc h hurl
    subst h
    constructor <;> simp [Rev2.playTrack, Rev2.playFinish, hsrc, hurl]

/-- C2 (witness): concrete checks of the amended statement on the
stream lists [audio "b"] and [video-only "a", audio "b"]. -/
theorem c2_amended_witness :
    Rev1.selectStream [{ url := "a", videoOnly := true }] = none ∧
    Rev2.selectStream [{ url := "a", videoOnly := true }, { url := "b", videoOnly := false }]
      = some { url := "a", videoOnly := true } ∧
    (Rev2.playTrack
        { playlist := [], cursor := 0, current := none, src := "", paused := false,
          pos := 0, miniHidden := true, fullHidden := true }
        { source := Source.youtube, title := "t", artist := "", cover := "",
          stream := "", videoId := "v" }
        (Except.ok [{ url := "u", videoOnly := true }])).src = "u" := by
  refine ⟨(c2_amended [{ url := "a", videoOnly := true }]).2.1 (by decide), ?_, ?_⟩
  · exact (c2_amended _).2.2.1 { url := "a", videoOnly := true }
      [{ url := "b", videoOnly := false }] rfl
  · exact ((c2_amended [{ url := "u", videoOnly := true }]).2.2.2 _ _
      { url := "u", videoOnly := true } [] rfl rfl (by decide)).1

/-- Every track produced by the Audius pipeline carries the audius
source tag. -/
lemma mapAudiusList_source (l : List AudiusRaw) :
    ∀ t ∈ mapAudiusList l, t.source = Source.audius := by
  intro t ht
  obtain ⟨x, _, rfl⟩ := List.mem_map.mp (List.mem_filter.mp ht).1
  rfl

/-- Every track produced by the Audius pipeline has a non-empty stream
URL: the filter keeps exactly the truthy stream fields. -/
lemma mapAudiusList_stream_ne (l : List AudiusRaw) :
    ∀ t ∈ mapAudiusList l, t.stream ≠ "" := by
  intro t ht
  have h := (List.mem_filter.mp ht).2
  simpa [bne_iff_ne] using h

/-- Every track produced by the Piped pipeline carries the youtube
source tag. -/
lemma mapYoutubeList_source (l : List PipedItem) :
    ∀ t ∈ mapYoutubeList l, t.source = Source.youtube := by
  intro t ht
  obtain ⟨x, _, rfl⟩ := List.mem_map.mp ht
  rfl

/-- Length of the Piped pipeline output: slice(0, 6) truncates and the
map keeps the length, with no filtering. -/
lemma mapYoutubeList_length (l : List PipedItem) :
    (mapYoutubeList l).length = min l.length 6 := by
  simp [mapYoutubeList, Nat.min_comm]

/-- When every raw Audius entry has a truthy stream URL the filter
keeps everything, so the pipeline returns min(a, 6) tracks from a raw
entries. -/
lemma mapAudiusList_length (l : List AudiusRaw)
    (hall : ∀ r ∈ l, (mapAudiusTrack r).stream ≠ "") :
    (mapAudiusList l).length = min l.length 6 := by
  have hfilter : ((l.take 6).map mapAudiusTrack).filter (fun t => t.stream != "")
      = (l.take 6).map mapAudiusTrack := by
    apply List.filter_eq_self.mpr
    intro a ha
    obtain ⟨x, hx, rfl⟩ := List.mem_map.mp ha
    simpa [bne_iff_ne] using hall x (List.take_subset _ _ hx)
  rw [mapAudiusList, hfilter, List.length_map, List.length_take, Nat.min_comm]

/-- C5 (counterexample): a Piped item with neither an id nor a url maps
to a rendered track whose videoId, the streamRef of a ProviderB track,
is empty: no filter guards the Piped pipeline, refuting the invariant
for ProviderB entries. -/
theorem c5_counterexample :
    searchTracks SourceFilter.all (Except.ok { data := some [] })
        (Except.ok (PipedResponse.withItems
          [{ id := none, url := none, title := some "t", uploader := none,
             thumbnail := none }]))
      = [{ source := Source.youtube, title := "t", artist := "", cover := "",
           stream := "", videoId := "" }] ∧
    streamRef { source := Source.youtube, title := "t", artist := "", cover := "",
                stream := "", videoId := "" } = "" := by decide

/-- C5 (amended): every ProviderA track in a rendered list has a
non-empty streamRef (entries lacking a truthy stream URL are filtered
out before display); ProviderB entries are mapped without any filter
(the list keeps min(b, 6) of b items), so their videoId may be empty. -/
theorem c5_amended (araw : List AudiusRaw) (items : List PipedItem) :
    (∀ t ∈ mapAudiusList araw, streamRef t ≠ "" ∧ t.source = Source.audius) ∧
    (mapYoutubeList items).length = min items.length 6 := by
  refine ⟨?_, mapYoutubeList_length items⟩
  intro t ht
  have hsrc := mapAudiusList_source araw t ht
  have hne := mapAudiusList_stream_ne araw t ht
  refine ⟨?_, hsrc⟩
  simpa [streamRef, hsrc] using hne

/-- C5 (witness): a concrete Audius entry with stream URL "u" yields a
rendered track with non-empty streamRef, and one Piped item yields one
rendered track. -/
theorem c5_amended_witness :
    streamRef { source := Source.audius, title := "s", artist := "", cover := "",
                stream := "u", videoId := "" } ≠ "" ∧
    (mapYoutubeList [{ id := some "v", url := none, title := none, uploader := none,
                       thumbnail := none }]).length = 1 := by
  have h := c5_amended
    [{ title := some "s", user := none, artwork := none,
       stream := some { url := some "u" } }]
    [{ id := some "v", url := none, title := none, uploader := none,
       thumbnail := none }]
  refine ⟨(h.1 _ (by decide)).1, ?_⟩
  rw [h.2]
  decide

/-- C6: with filter All and both fetches succeeding, the merged
playlist is the processed ProviderA tracks followed by the processed
ProviderB tracks; when every returned ProviderA entry passes the
stream filter the ProviderA part has min(a, 6) tracks, the ProviderB
part always has min(b, 6) tracks, and the two parts carry their
providers' source tags in order. -/
theorem c6_merge (araw : List AudiusRaw) (items : List PipedItem)
    (hall : ∀ r ∈ araw, (mapAudiusTrack r).stream ≠ "") :
    searchTracks SourceFilter.all (Except.ok { data := some araw })
        (Except.ok (PipedResponse.withItems items))
      = mapAudiusList araw ++ mapYoutubeList items ∧
    (mapAudiusList araw).length = min araw.length 6 ∧
    (mapYoutubeList items).length = min items.length 6 ∧
    (∀ t ∈ mapAudiusList araw, t.source = Source.audius) ∧
    (∀ t ∈ mapYoutubeList items, t.source = Source.youtube) :=
  ⟨rfl, mapAudiusList_length araw hall, mapYoutubeList_length items,
    mapAudiusList_source araw, mapYoutubeList_source items⟩

/-- C6 (witness): with 2 concrete ProviderA entries and 3 concrete
ProviderB entries under filter All, the merged playlist has 5 entries
with ProviderA tracks at indices 0 and 1 and ProviderB tracks at
indices 2 through 4. -/
theorem c6_merge_witness :
    (searchTracks SourceFilter.all
        (Except.ok { data := some
                       [{ title := some "a1", user := none, artwork := none,
                          stream := some { url := some "u1" } },
                        { title := some "a2", user := none, artwork := none,
                          stream := some { url := some "u2" } }] })
        (Except.ok (PipedResponse.withItems
          [{ id := some "v1", url := none, title := some "y1", uploader := none,
             thumbnail := none },
           { id := some "v2", url := none, title := some "y2", uploader := none,
             thumbnail := none },
           { id := some "v3", url := none, title := some "y3", uploader := none,
             thumbnail := none }]))).length = 5 ∧
    (searchTracks SourceFilter.all
        (Except.ok { data := some
                       [{ title := some "a1", user := none, artwork := none,
                          stream := some { url := some "u1" } },
                        { title := some "a2", user := none, artwork := none,
                          stream := some { url := some "u2" } }] })
        (Except.ok (PipedResponse.withItems
          [{ id := some "v1", url := none, title := some "y1", uploader := none,
             thumbnail := none },
           { id := some "v2", url := none, title := some "y2", uploader := none,
             thumbnail := none },
           { id := some "v3", url := none, title := some "y3", uploader := none,
             thumbnail := none }]))).map Track.source
      = [Source.audius, Source.audius, Source.youtube, Source.youtube,
         Source.youtube] := by
  have h := c6_merge
    [{ title := some "a1", user := none, artwork := none,
       stream := some { url := some "u1" } },
     { title := some "a2", user := none, artwork := none,
       stream := some { url := some "u2" } }]
    [{ id := some "v1", url := none, title := some "y1", uploader := none,
       thumbnail := none },
     { id := some "v2", url := none, title := some "y2", uploader := none,
       thumbnail := none },
     { id := some "v3", url := none, title := some "y3", uploader := none,
       thumbnail := none }]
    (by decide)
  exact ⟨by rw [h.1]; decide, by rw [h.1]; decide⟩

/-- C7: a failing provider fetch contributes an empty result set and
nothing else changes: with ProviderA failed the merged playlist is
exactly the processed ProviderB tracks (all tagged youtube), with
ProviderB failed it is exactly the processed ProviderA tracks (all
tagged audius), and with both failed it is empty; the aggregate search
always returns a playlist. -/
theorem c7_provider_isolation (aResp : AudiusResponse) (yResp : PipedResponse) :
    searchTracks SourceFilter.all (Except.error ()) (Except.ok yResp)
      = mapYoutubeList (pipedItems yResp) ∧
    (∀ t ∈ searchTracks SourceFilter.all (Except.error ()) (Except.ok yResp),
      t.source = Source.youtube) ∧
    searchTracks SourceFilter.all (Except.ok aResp) (Except.error ())
      = mapAudiusList (aResp.data.getD []) ∧
    (∀ t ∈ searchTracks SourceFilter.all (Except.ok aResp) (Except.error ()),
      t.source = Source.audius) ∧
    searchTracks SourceFilter.all (Except.error ()) (Except.error ()) = [] := by
  refine ⟨rfl, ?_, by simp [searchTracks], ?_, rfl⟩
  · intro t ht
    exact mapYoutubeList_source _ t ht
  · intro t ht
    refine mapAudiusList_source (aResp.data.getD []) t ?_
    simpa [searchTracks] using ht

/-- C7 (witness): with a failed ProviderA fetch and one concrete Piped
item, the merged playlist is that single ProviderB track. -/
theorem c7_provider_isolation_witness :
    searchTracks SourceFilter.all (Except.error ())
        (Except.ok (PipedResponse.withItems
          [{ id := some "v1", url := none, title := some "y1", uploader := none,
             thumbnail := none }]))
      = [{ source := Source.youtube, title := "y1", artist := "", cover := "",
           stream := "", videoId := "v1" }] := by
  have h := c7_provider_isolation { data := none }
    (PipedResponse.withItems
      [{ id := some "v1", url := none, title := some "y1", uploader := none,
         thumbnail := none }])
  rw [h.1]
  decide

/-- C3 (amended): when the second revision's playNext selects a
YouTube track and the stream resolution fails, the load is aborted (no
stream URL is assigned and playback is not started), but the state does
not return to what it was before the selection: the cursor has already
advanced, currentTrack is set to the failed track, and the previously
playing audio has been paused and its source cleared rather than kept
playing. -/
theorem c3_amended (st : Rev2.PlayerState) (tr : Track)
    (h0 : 0 < st.playlist.length) (hc : 0 ≤ st.cursor)
    (hget : st.playlist.get? ((st.cursor + 1).tmod st.playlist.length).toNat = some tr)
    (hsrc : tr.source = Source.youtube) :
    (Rev2.playNext false 0 (Except.error ()) st).cursor
        = (st.cursor + 1).tmod st.playlist.length ∧
    (Rev2.playNext false 0 (Except.error ()) st).current = some tr ∧
    (Rev2.playNext false 0 (Except.error ()) st).paused = true ∧
    (Rev2.playNext false 0 (Except.error ()) st).src = "" ∧
    (Rev2.playNext false 0 (Except.error ()) st).playlist = st.playlist := by
  have hnz : ¬ st.playlist.length = 0 := by omega
  have hidx := tmod_bounds (st.cursor + 1) st.playlist.length h0 (by omega)
  have hget' : st.playlist[((st.cursor + 1).tmod st.playlist.length).toNat]? = some tr := by
    simpa [List.get?_eq_getElem?] using hget
  simp [Rev2.playNext, Rev2.nextIndex, Rev2.playTrack, hnz, hget', hsrc,
    hidx.1, not_lt.mpr hidx.1]

/-- C3 (witness): concrete two-track state at cursor 0 playing an
Audius track; a failing resolution of the YouTube track at index 1
leaves the cursor at 1, the current track replaced, and the audio
stopped. -/
theorem c3_amended_witness :
    (Rev2.playNext false 0 (Except.error ())
        { playlist :=
            [{ source := Source.audius, title := "a", artist := "", cover := "",
               stream := "ua", videoId := "" },
             { source := Source.youtube, title := "y", artist := "", cover := "",
               stream := "", videoId := "vid" }],
          cursor := 0,
          current := some { source := Source.audius, title := "a", artist := "",
                            cover := "", stream := "ua", videoId := "" },
          src := "ua", paused := false, pos := 3, miniHidden := false,
          fullHidden := true }).cursor = 1 ∧
    (Rev2.playNext false 0 (Except.error ())
        { playlist :=
            [{ source := Source.audius, title := "a", artist := "", cover := "",
               stream := "ua", videoId := "" },
             { source := Source.youtube, title := "y", artist := "", cover := "",
               stream := "", videoId := "vid" }],
          cursor := 0,
          current := some { source := Source.audius, title := "a", artist := "",
                            cover := "", stream := "ua", videoId := "" },
          src := "ua", paused := false, pos := 3, miniHidden := false,
          fullHidden := true }).current
      = some { source := Source.youtube, title := "y", artist := "", cover := "",
               stream := "", videoId := "vid" } := by
  have h := c3_amended
    { playlist :=
        [{ source := Source.audius, title := "a", artist := "", cover := "",
           stream := "ua", videoId := "" },
         { source := Source.youtube, title := "y", artist := "", cover := "",
           stream := "", videoId := "vid" }],
      cursor := 0,
      current := some { source := Source.audius, title := "a", artist := "",
                        cover := "", stream := "ua", videoId := "" },
      src := "ua", paused := false, pos := 3, miniHidden := false,
      fullHidden := true }
    { source := Source.youtube, title := "y", artist := "", cover := "",
      stream := "", videoId := "vid" }
    (by decide) (by decide) (by decide) rfl
  exact ⟨by rw [h.1]; decide, h.2.1⟩

/-- C3 (counterexample): at the same concrete state the claim fails:
after the failed resolution the cursor has advanced from 0 to 1, the
current track is no longer the Audius track that was playing, and the
audio is paused with an empty source instead of continuing. -/
theorem c3_counterexample :
    (Rev2.playNext false 0 (Except.error ())
        { playlist :=
            [{ source := Source.audius, title := "a", artist := "", cover := "",
               stream := "ua", videoId := "" },
             { source := Source.youtube, title := "y", artist := "", cover := "",
               stream := "", videoId := "vid" }],
          cursor := 0,
          current := some { source := Source.audius, title := "a", artist := "",
                            cover := "", stream := "ua", videoId := "" },
          src := "ua", paused := false, pos := 3, miniHidden := false,
          fullHidden := true }).cursor ≠ 0 ∧
    (Rev2.playNext false 0 (Except.error ())
        { playlist :=
            [{ source := Source.audius, title := "a", artist := "", cover := "",
               stream := "ua", videoId := "" },
             { source := Source.youtube, title := "y", artist := "", cover := "",
               stream := "", videoId := "vid" }],
          cursor := 0,
          current := some { source := Source.audius, title := "a", artist := "",
                            cover := "", stream := "ua", videoId := "" },
          src := "ua", paused := false, pos := 3, miniHidden := false,
          fullHidden := true }).current
      ≠ some { source := Source.audius, title := "a", artist := "", cover := "",
               stream := "ua", videoId := "" } ∧
    (Rev2.playNext false 0 (Except.error ())
        { playlist :=
            [{ source := Source.audius, title := "a", artist := "", cover := "",
               stream := "ua", videoId := "" },
             { source := Source.youtube, title := "y", artist := "", cover := "",
               stream := "", videoId := "vid" }],
          cursor := 0,
          current := some { source := Source.audius, title := "a", artist := "",
                            cover := "", stream := "ua", videoId := "" },
          src := "ua", paused := false, pos := 3, miniHidden := false,
          fullHidden := true }).paused = true := by decide

/-- C4 (counterexample): closing the player does not clear the current
track or reset the cursor to -1 in either revision: at a concrete state
with cursor 2 and a current track, both survive close unchanged. -/
theorem c4_counterexample :
    (Rev2.close { playlist := [], cursor := 2,
                  current := some { source := Source.audius, title := "x",
                                    artist := "", cover := "", stream := "u",
                                    videoId := "" },
                  src := "u", paused := false, pos := 7, miniHidden := false,
                  fullHidden := true }).cursor ≠ -1 ∧
    (Rev2.close { playlist := [], cursor := 2,
                  current := some { source := Source.audius, title := "x",
                                    artist := "", cover := "", stream := "u",
                                    videoId := "" },
                  src := "u", paused := false, pos := 7, miniHidden := false,
                  fullHidden := true }).current ≠ none ∧
    (Rev1.close { playlist := [], cursor := 2,
                  current := some { source := Source.audius, title := "x",
                                    artist := "", cover := "", stream := "u",
                                    videoId := "" },
                  src := "u", paused := false, pos := 7, playerHidden := false,
                  expanded := true }).cursor ≠ -1 := by decide

/-- C4 (amended): close pauses the audio, resets the position to 0 and
hides the player views (both panels in the second revision, the single
panel with its expanded flag cleared in the first), but it leaves
currentTrack and cursorIndex unchanged rather than clearing them. -/
theorem c4_amended (st : Rev2.PlayerState) (st1 : Rev1.PlayerState) :
    (Rev2.close st).paused = true ∧
    (Rev2.close st).pos = 0 ∧
    (Rev2.close st).miniHidden = true ∧
    (Rev2.close st).fullHidden = true ∧
    (Rev2.close st).cursor = st.cursor ∧
    (Rev2.close st).current = st.current ∧
    (Rev1.close st1).paused = true ∧
    (Rev1.close st1).pos = 0 ∧
    (Rev1.close st1).playerHidden = true ∧
    (Rev1.close st1).expanded = false ∧
    (Rev1.close st1).cursor = st1.cursor ∧
    (Rev1.close st1).current = st1.current :=
  ⟨rfl, rfl, rfl, rfl, rfl, rfl, rfl, rfl, rfl, rfl, rfl, rfl⟩
